import Mathlib

/-!
Verification development for the RedNote session & extraction orchestrator
(`src/auth/authManager.ts`, `src/tools/rednoteTools.ts`, `src/cli.ts`).

The TypeScript code is shallowly embedded: pure functions become Lean
functions; effectful workflows become functions from an explicit environment
(the outcomes of the external browser primitives) to a trace of emitted
browser-side events together with an `Except`-style result.  Timeouts are
modelled as rationals so that the JavaScript expression `timeout / 3` is
translated exactly.
-/

namespace RedNote

deriving instance DecidableEq for Except

/-- Rendering of a numeric timeout value into a message string (models the JS
template interpolation `${bound}` of a number). -/
def renderQ (q : ℚ) : String :=
  if q.den = 1 then toString q.num else toString q.num ++ "/" ++ toString q.den

/-- JavaScript `Math.min` on the rational time values of this model, written
with an explicit comparison so that it evaluates inside the kernel. -/
def qmin (a b : ℚ) : ℚ := if a ≤ b then a else b

/-- Exact division of a rational by a natural number, implemented with
`mkRat` so that it evaluates inside the kernel (division through the field
structure does not reduce there); `divQ_eq_div` below shows it is the true
division, so the JS expression `timeout / 3` is modelled exactly. -/
def divQ (a : ℚ) (n : ℕ) : ℚ := mkRat a.num (a.den * n)

/-- `containsSub s pat`: `pat` occurs as a contiguous substring of `s`. -/
def containsSub (s pat : String) : Prop :=
  ∃ p q, s.data = p ++ pat.data ++ q

/-! ## Link resolution: `RedNoteTools.extractRedBookUrl`

The source tries the regex `/(https?:\/\/xhslink\.com\/[a-zA-Z0-9\/]+)/i`
first, then `/(https?:\/\/(?:www\.)?xiaohongshu\.com\/[^，\s]+)/i`, returning
the first (leftmost) match of the first pattern that matches, and the input
unchanged when neither matches. -/

/-- Characters allowed in the body of an `xhslink.com` short link:
the regex class `[a-zA-Z0-9/]`. -/
def isLinkChar (c : Char) : Bool :=
  c.isAlphanum || c == '/'

/-- The JavaScript regex whitespace class `\s`. -/
def isJsWhitespace (c : Char) : Bool :=
  let n := c.toNat
  n == 0x20 || n == 0x09 || n == 0x0a || n == 0x0b || n == 0x0c || n == 0x0d ||
  n == 0xa0 || n == 0x1680 || (0x2000 ≤ n && n ≤ 0x200a) || n == 0x2028 ||
  n == 0x2029 || n == 0x202f || n == 0x205f || n == 0x3000 || n == 0xfeff

/-- Characters allowed in the body of a `xiaohongshu.com` link:
the regex class `[^，\s]` (anything but a full-width comma or whitespace). -/
def isXhsBodyChar (c : Char) : Bool :=
  !(c == '，' || isJsWhitespace c)

/-- Case-insensitive literal matching: consume the pattern (first argument)
case-insensitively from the front of the subject (second argument), returning
the consumed original characters and the remainder. -/
def matchLitCI : List Char → List Char → Option (List Char × List Char)
  | [], s => some ([], s)
  | _ :: _, [] => none
  | l :: ls, c :: cs =>
    if c.toLower == l.toLower then
      (matchLitCI ls cs).map (fun r => (c :: r.1, r.2))
    else none

/-- Match the scheme part `https?:\/\/` (case-insensitive) at the front of a
string.  The optional `s` can be taken greedily without backtracking: taking
it and then requiring `://` fails exactly when the genuine regex fails. -/
def matchScheme (s : List Char) : Option (List Char × List Char) :=
  match matchLitCI "http".data s with
  | none => none
  | some r1 =>
    let os : List Char × List Char :=
      match r1.2 with
      | c :: cs => if c.toLower == 's' then ([c], cs) else ([], r1.2)
      | [] => ([], [])
    match matchLitCI "://".data os.2 with
    | none => none
    | some r3 => some (r1.1 ++ os.1 ++ r3.1, r3.2)

/-- Attempt the pattern `https?:\/\/xhslink\.com\/[a-zA-Z0-9\/]+` (flag `i`)
at the start of `s`, returning the matched characters.  The trailing `+` is
greedy and nothing follows it in the pattern, so the match takes the maximal
run of allowed characters. -/
def matchXhslinkAt (s : List Char) : Option (List Char) :=
  match matchScheme s with
  | none => none
  | some ms =>
    match matchLitCI "xhslink.com/".data ms.2 with
    | none => none
    | some mh =>
      let body := mh.2.takeWhile isLinkChar
      if body.isEmpty then none else some (ms.1 ++ mh.1 ++ body)

/-- Attempt the pattern `https?:\/\/(?:www\.)?xiaohongshu\.com\/[^，\s]+`
(flag `i`) at the start of `s`.  The optional `www.` can be taken greedily
without backtracking (`www.` and `xiaohongshu` cannot both match the same
position). -/
def matchXiaohongshuAt (s : List Char) : Option (List Char) :=
  match matchScheme s with
  | none => none
  | some ms =>
    let ow : List Char × List Char :=
      match matchLitCI "www.".data ms.2 with
      | some mw => mw
      | none => ([], ms.2)
    match matchLitCI "xiaohongshu.com/".data ow.2 with
    | none => none
    | some mh =>
      let body := mh.2.takeWhile isXhsBodyChar
      if body.isEmpty then none else some (ms.1 ++ ow.1 ++ mh.1 ++ body)

/-- Leftmost match: JavaScript `String.match` tries the pattern at each
successive start position and returns the first success. -/
def firstMatch (f : List Char → Option (List Char)) : List Char → Option (List Char)
  | [] => none
  | c :: cs =>
    match f (c :: cs) with
    | some m => some m
    | none => firstMatch f cs

/-- `RedNoteTools.extractRedBookUrl` (rednoteTools.ts lines 91-109): try the
short-link pattern, then the canonical-domain pattern, otherwise return the
input unchanged. -/
def extractRedBookUrl (shareText : String) : String :=
  match firstMatch matchXhslinkAt shareText.data with
  | some m => ⟨m⟩
  | none =>
    match firstMatch matchXiaohongshuAt shareText.data with
    | some m => ⟨m⟩
    | none => shareText

/-! ## `AuthManager.login` (authManager.ts lines 61-171)

The login flow is embedded as a function from a caller timeout and an
environment (the outcome of each external browser primitive, one record per
attempt) to the trace of browser-side events it performs plus its result.
`AttemptEnv` fixes, for one attempt: how many persisted cookies were loaded,
whether the landing-page navigation succeeded, whether the sidebar element
was present and the identity probe returned `true`, whether the login-dialog
container / QR image / post-login sidebar selectors appeared within their
waits, and whether the final verification probe returned `true`.  The error
message of a failed external primitive is also environment-supplied. -/

/-- Outcomes of the external browser primitives during one login attempt. -/
structure AttemptEnv where
  cookies : ℕ
  gotoOk : Bool
  gotoErr : String
  sidebarPresent : Bool
  probeLoggedIn : Bool
  dialogAppears : Bool
  dialogErr : String
  qrAppears : Bool
  qrErr : String
  humanAppears : Bool
  humanErr : String
  verifyOk : Bool

/-- Browser-side events the auth manager performs, with the timeout each
bounded wait receives. -/
inductive AEv where
  | launch
  | newContext
  | newPage
  | addCookies (n : ℕ)
  | gotoExplore (t : ℚ)
  | querySidebar
  | probe
  | waitDialog (t : ℚ)
  | waitQr (t : ℚ)
  | waitHuman (t : ℚ)
  | saveCookies
  | closePage
  | closeContext
  | closeBrowser
  | backoff (ms : ℚ)
deriving DecidableEq, Repr

/-- The login-dialog phase of one attempt (authManager.ts lines 109-154):
wait for `.login-container`, then `.qrcode-img` (both bounded by
`min(10000, timeout/3)`), then the human-paced wait for the sidebar bounded
by `timeout`, then the verification probe, then cookie persistence. -/
def loginDialogPhase (timeout : ℚ) (env : AttemptEnv) (acc : List AEv) :
    List AEv × Except String Unit :=
  let sub := qmin 10000 (divQ timeout 3)
  let acc := acc ++ [AEv.waitDialog sub]
  if !env.dialogAppears then
    (acc, .error ("登录对话框加载超时 (" ++ renderQ sub ++ "ms): " ++ env.dialogErr))
  else
    let acc := acc ++ [AEv.waitQr sub]
    if !env.qrAppears then
      (acc, .error ("二维码加载超时 (" ++ renderQ sub ++ "ms): " ++ env.qrErr))
    else
      let acc := acc ++ [AEv.waitHuman timeout]
      if !env.humanAppears then
        (acc, .error ("等待用户登录超时 (" ++ renderQ timeout ++ "ms): " ++ env.humanErr))
      else
        let acc := acc ++ [AEv.probe]
        if !env.verifyOk then (acc, .error "Login verification failed")
        else (acc ++ [AEv.saveCookies], .ok ())

/-- One login attempt (body of the `while` loop, authManager.ts lines 73-154):
fresh context and page, cookie replay, landing-page navigation bounded by
`min(10000, timeout/3)`, already-logged-in early return, else the dialog
phase. -/
def loginAttempt (timeout : ℚ) (env : AttemptEnv) : List AEv × Except String Unit :=
  let sub := qmin 10000 (divQ timeout 3)
  let acc := [AEv.newContext, AEv.newPage]
    ++ (if env.cookies > 0 then [AEv.addCookies env.cookies] else [])
    ++ [AEv.gotoExplore sub]
  if !env.gotoOk then (acc, .error env.gotoErr)
  else
    let acc := acc ++ [AEv.querySidebar]
    if env.sidebarPresent then
      let acc := acc ++ [AEv.probe]
      if env.probeLoggedIn then (acc ++ [AEv.saveCookies], .ok ())
      else loginDialogPhase timeout env acc
    else loginDialogPhase timeout env acc

/-- The retry ceiling `maxRetries` (authManager.ts line 70). -/
def maxRetries : ℕ := 3

/-- The retry loop of `login` (authManager.ts lines 72-170), recursing on the
number of attempts still allowed; `idx` numbers the attempts so that attempt
`k` draws its outcomes from `env k`.  On a failed attempt the page and
context are closed; with attempts remaining a constant 2000ms backoff runs,
otherwise the terminal error names the retry ceiling and wraps the last
attempt's cause. -/
def loginFrom (timeout : ℚ) (env : ℕ → AttemptEnv) :
    (remaining : ℕ) → (idx : ℕ) → List AEv × Except String Unit
  | 0, _ => ([], .ok ())
  | r + 1, idx =>
    let a := loginAttempt timeout (env idx)
    match a.2 with
    | .ok () => (a.1, .ok ())
    | .error e =>
      let closed := a.1 ++ [AEv.closePage, AEv.closeContext]
      if r = 0 then
        (closed,
          .error ("登录失败，已达到最大重试次数 (" ++ toString maxRetries ++ "): " ++ e))
      else
        let rest := loginFrom timeout env r (idx + 1)
        (closed ++ [AEv.backoff 2000] ++ rest.1, rest.2)

/-- `AuthManager.login` (authManager.ts lines 61-171): launch the browser,
then run up to `maxRetries` attempts. -/
def login (timeout : ℚ) (env : ℕ → AttemptEnv) : List AEv × Except String Unit :=
  let l := loginFrom timeout env maxRetries 0
  (AEv.launch :: l.1, l.2)

/-- Two sequential calls of the login flow (the model is deterministic in its
environment, so each call is an independent application). -/
def loginTwice (timeout : ℚ) (env₁ env₂ : ℕ → AttemptEnv) :
    (List AEv × Except String Unit) × (List AEv × Except String Unit) :=
  (login timeout env₁, login timeout env₂)

/-- `AuthManager.cleanup` (authManager.ts lines 173-180): closes the page and
the context when set, then nulls the fields — the browser process is never
closed. -/
def authCleanup (pageSet contextSet : Bool) : List AEv :=
  (if pageSet then [AEv.closePage] else []) ++
    (if contextSet then [AEv.closeContext] else [])

/-! ## `RedNoteTools` (rednoteTools.ts)

The three extraction workflows are embedded the same way: environment in,
trace of browser-side events and result out. -/

/-- The `Note` record built by the search workflow's in-page extraction
(rednoteTools.ts lines 159-195; the extracted object carries no `tags`
field). -/
structure NoteV where
  title : String
  content : String
  url : String
  author : String
  likes : ℕ
  collects : ℕ
  comments : ℕ
deriving DecidableEq, Repr

/-- Modelled from the spec: the `NoteDetail` record returned by the external
`GetNoteDetail` collaborator (its file `noteDetail.ts` is not part of the
sources here); per the spec's `Note` data model it carries at least a title,
a content and a `url` field. -/
structure NoteDetailV where
  title : String
  content : String
  url : String
deriving DecidableEq, Repr

/-- The `Comment` record (rednoteTools.ts lines 17-22). -/
structure CommentV where
  author : String
  content : String
  likes : ℕ
  time : String
deriving DecidableEq, Repr

/-- Browser-side events of a `RedNoteTools` workflow call. -/
inductive TEv where
  | launchBrowser
  | reuseAuthBrowser
  | newPage
  | addCookies (n : ℕ)
  | goto (url : String) (t : ℚ)
  | evalLoginCheck
  | waitSelector (sel : String) (t : ℚ)
  | clickItem (i : ℕ)
  | extractNote (i : ℕ)
  | closeNoteDialog
  | waitDetached (t : ℚ)
  | extractComments
  | getNoteDetailCall
  | closeBrowser
deriving DecidableEq, Repr

/-- Outcomes of the external primitives during `RedNoteTools.initialize`;
`browserAlreadyOpen` is whether `RedNoteTools.browser` is non-null at entry,
`authBrowserLaunched` whether `AuthManager.browser` already holds a handle
(in which case `getBrowser` returns that handle — possibly a stale, closed
one — instead of launching). -/
structure InitEnv where
  browserAlreadyOpen : Bool
  authBrowserLaunched : Bool
  cookies : ℕ
  gotoHomeOk : Bool
  evalResult : Option Bool

/-- UTF-8 bytes of a character, as naturals. -/
def utf8Bytes (c : Char) : List ℕ :=
  let n := c.toNat
  if n < 0x80 then [n]
  else if n < 0x800 then [0xC0 + n / 0x40, 0x80 + n % 0x40]
  else if n < 0x10000 then
    [0xE0 + n / 0x1000, 0x80 + n / 0x40 % 0x40, 0x80 + n % 0x40]
  else
    [0xF0 + n / 0x40000, 0x80 + n / 0x1000 % 0x40, 0x80 + n / 0x40 % 0x40,
      0x80 + n % 0x40]

/-- Upper-case hexadecimal digit. -/
def hexDigit (n : ℕ) : Char :=
  if n < 10 then Char.ofNat (48 + n) else Char.ofNat (55 + n)

/-- Characters `encodeURIComponent` leaves unescaped. -/
def uriUnreserved (c : Char) : Bool :=
  c.isAlphanum || c == '-' || c == '_' || c == '.' || c == '!' || c == '~' ||
    c == '*' || c == Char.ofNat 39 || c == '(' || c == ')'

/-- JavaScript `encodeURIComponent`: percent-encode every character outside
the unreserved set, byte-wise over its UTF-8 encoding. -/
def encodeURIComponent (s : String) : String :=
  ⟨List.flatten (s.data.map fun c =>
    if uriUnreserved c then [c]
    else List.flatten ((utf8Bytes c).map fun b =>
      ['%', hexDigit (b / 16), hexDigit (b % 16)]))⟩

/-- The landing page used by the login-status check. -/
def homeUrl : String := "https://www.xiaohongshu.com"

/-- The keyword-encoded search URL (rednoteTools.ts line 121). -/
def searchUrl (keywords : String) : String :=
  "https://www.xiaohongshu.com/search_result?keyword=" ++ encodeURIComponent keywords

/-- The timeout `RedNoteTools.searchNotes` itself would use (rednoteTools.ts
line 112: `timeout || this.timeout`), given the explicit argument and the
instance default. -/
def toolsEffectiveTimeout (callT : Option ℚ) (instT : ℚ) : ℚ :=
  match callT with
  | some t => if t ≠ 0 then t else instT
  | none => instT

/-- `RedNoteTools.initialize` (rednoteTools.ts lines 39-80): when
`this.browser` is null, acquire a browser through `AuthManager.getBrowser`
(authManager.ts lines 46-54) — that launches a fresh browser only when
`AuthManager.browser` is itself null, and otherwise returns the handle it
already holds, even a stale one that a previous per-call cleanup closed (the
cleanup nulls only `RedNoteTools.browser`) — then open a page, replay
cookies, navigate to the home page bounded by the operation timeout, and
evaluate the identity probe; a negative probe raises `Not logged in`, a
failed probe evaluation raises a timeout message carrying the bound.
Returns `some msg` on error. -/
def initTools (env : InitEnv) (opT : ℚ) : List TEv × Option String :=
  if env.browserAlreadyOpen then ([], none)
  else
    let acquire :=
      if env.authBrowserLaunched then [TEv.reuseAuthBrowser] else [TEv.launchBrowser]
    let tr := acquire ++ [TEv.newPage]
      ++ (if env.cookies > 0 then [TEv.addCookies env.cookies] else [])
      ++ [TEv.goto homeUrl opT]
    if !env.gotoHomeOk then
      (tr, some ("初始化访问主页超时 (" ++ renderQ opT ++ "ms)"))
    else
      let tr := tr ++ [TEv.evalLoginCheck]
      match env.evalResult with
      | none => (tr, some ("验证登录状态超时 (" ++ renderQ opT ++ "ms)"))
      | some true => (tr, none)
      | some false => (tr, some "Not logged in")

/-- Outcome of the recovery block run in a per-item `catch`
(rednoteTools.ts lines 217-229): the close button may be absent, the
close-and-detach recovery may succeed, or the recovery itself may throw (its
`click`/`waitForSelector` calls are not guarded), which propagates. -/
inductive RecOutcome where
  | closed
  | noButton
  | throws (msg : String)
deriving DecidableEq, Repr

/-- Outcome of processing one search-result item (body of the `for` loop,
rednoteTools.ts lines 144-234): full success with an extracted note, a
`null` extraction (nothing pushed, no error), a failure thrown before the
note was pushed, or a failure thrown after the note was pushed. -/
inductive ItemOutcome where
  | ok (n : NoteV)
  | nullNote
  | fail (r : RecOutcome)
  | okThenFail (n : NoteV) (r : RecOutcome)
deriving DecidableEq, Repr

/-- The per-item loop of `searchNotes`: per-item failures whose recovery does
not throw are swallowed (the item is skipped); a throwing recovery propagates
and aborts the loop, discarding the notes accumulated so far. -/
def searchLoop : List ItemOutcome → Except String (List NoteV)
  | [] => .ok []
  | o :: rest =>
    match o with
    | .ok n => (searchLoop rest).map (n :: ·)
    | .nullNote => searchLoop rest
    | .fail r =>
      match r with
      | .throws m => .error m
      | _ => searchLoop rest
    | .okThenFail n r =>
      match r with
      | .throws m => .error m
      | _ => (searchLoop rest).map (n :: ·)

/-- The result of the search loop over the first `min(length, limit)` items
(rednoteTools.ts line 144: `i < Math.min(noteItems.length, limit)`). -/
def searchNotesCore (items : List ItemOutcome) (limit : ℕ) : Except String (List NoteV) :=
  searchLoop (items.take limit)

/-- Trace of events for processing one search-result item. -/
def itemTrace (i : ℕ) (o : ItemOutcome) : List TEv :=
  match o with
  | .ok _ =>
    [TEv.clickItem i, TEv.waitSelector "#noteContainer" 30000, TEv.extractNote i,
      TEv.closeNoteDialog, TEv.waitDetached 30000]
  | .nullNote =>
    [TEv.clickItem i, TEv.waitSelector "#noteContainer" 30000, TEv.extractNote i,
      TEv.closeNoteDialog, TEv.waitDetached 30000]
  | .fail _ => [TEv.clickItem i]
  | .okThenFail _ _ =>
    [TEv.clickItem i, TEv.waitSelector "#noteContainer" 30000, TEv.extractNote i]

/-- Events of the whole item loop, numbering items from `i`. -/
def itemsTrace (i : ℕ) : List ItemOutcome → List TEv
  | [] => []
  | o :: rest =>
    match o with
    | .fail (.throws _) => itemTrace i o
    | .okThenFail _ (.throws _) => itemTrace i o
    | _ => itemTrace i o ++ itemsTrace (i + 1) rest

/-- `RedNoteTools.cleanup` (rednoteTools.ts lines 82-89): when a browser is
open it is closed — the whole browser, not just the page or context — and the
fields are nulled. -/
def toolsCleanup (browserOpen : Bool) : List TEv :=
  if browserOpen then [TEv.closeBrowser] else []

/-- Environment of one `searchNotes` call. -/
structure SearchEnv where
  init : InitEnv
  gotoSearchOk : Bool
  resultsOk : Bool
  items : List ItemOutcome

/-- `RedNoteTools.searchNotes` (rednoteTools.ts lines 111-241): initialize
(outside the `try`/`finally`, so an initialization failure skips cleanup),
navigate to the search URL and wait for the results container (both bounded
by the operation timeout, with timeout messages carrying the bound), run the
item loop, and in `finally` run `cleanup`, which closes the browser. -/
def searchNotesM (keywords : String) (limit : ℕ) (callT : Option ℚ) (instT : ℚ)
    (env : SearchEnv) : List TEv × Except String (List NoteV) :=
  let opT := toolsEffectiveTimeout callT instT
  let ini := initTools env.init opT
  match ini.2 with
  | some m => (ini.1, .error m)
  | none =>
    let inner : List TEv × Except String (List NoteV) :=
      let tr := [TEv.goto (searchUrl keywords) opT]
      if !env.gotoSearchOk then
        (tr, .error ("导航到搜索页面超时 (" ++ renderQ opT ++ "ms)"))
      else
        let tr := tr ++ [TEv.waitSelector ".feeds-container" opT]
        if !env.resultsOk then
          (tr, .error ("搜索结果加载超时 (" ++ renderQ opT ++ "ms)"))
        else
          (tr ++ itemsTrace 0 (env.items.take limit), searchNotesCore env.items limit)
    (ini.1 ++ inner.1 ++ toolsCleanup true, inner.2)

/-- Environment of one `getNoteContent` call; `detail` is the result of the
external `GetNoteDetail` collaborator. -/
structure DetailEnv where
  init : InitEnv
  gotoOk : Bool
  detail : Except String NoteDetailV

/-- `RedNoteTools.getNoteContent` (rednoteTools.ts lines 243-267): initialize,
resolve the share link with `extractRedBookUrl`, navigate to the resolved URL
(timeout message carries the bound), delegate to `GetNoteDetail`, then
overwrite the result's `url` field with the original caller-supplied URL; the
`finally` runs `cleanup`. -/
def getNoteContentM (url : String) (callT : Option ℚ) (instT : ℚ) (env : DetailEnv) :
    List TEv × Except String NoteDetailV :=
  let opT := toolsEffectiveTimeout callT instT
  let ini := initTools env.init opT
  match ini.2 with
  | some m => (ini.1, .error m)
  | none =>
    let actualURL := extractRedBookUrl url
    let inner : List TEv × Except String NoteDetailV :=
      let tr := [TEv.goto actualURL opT]
      if !env.gotoOk then
        (tr, .error ("打开笔记页面超时 (" ++ renderQ opT ++ "ms)"))
      else
        let tr := tr ++ [TEv.getNoteDetailCall]
        match env.detail with
        | .error m => (tr, .error m)
        | .ok nd => (tr, .ok { nd with url := url })
    (ini.1 ++ inner.1 ++ toolsCleanup true, inner.2)

/-- Environment of one `getNoteComments` call. -/
structure CommentsEnv where
  init : InitEnv
  gotoOk : Bool
  commentsOk : Bool
  comments : List CommentV

/-- `RedNoteTools.getNoteComments` (rednoteTools.ts lines 269-317):
initialize, navigate to the caller-supplied URL **as given** (no
`extractRedBookUrl`), wait for the comment list (both timeout messages carry
the bound), extract the visible comments; the `finally` runs `cleanup`. -/
def getNoteCommentsM (url : String) (callT : Option ℚ) (instT : ℚ) (env : CommentsEnv) :
    List TEv × Except String (List CommentV) :=
  let opT := toolsEffectiveTimeout callT instT
  let ini := initTools env.init opT
  match ini.2 with
  | some m => (ini.1, .error m)
  | none =>
    let inner : List TEv × Except String (List CommentV) :=
      let tr := [TEv.goto url opT]
      if !env.gotoOk then
        (tr, .error ("打开评论页面超时 (" ++ renderQ opT ++ "ms)"))
      else
        let tr := tr ++ [TEv.waitSelector "[role=dialog] [role=list]" opT]
        if !env.commentsOk then
          (tr, .error ("评论加载超时 (" ++ renderQ opT ++ "ms)"))
        else
          (tr ++ [TEv.extractComments], .ok env.comments)
    (ini.1 ++ inner.1 ++ toolsCleanup true, inner.2)

/-- The URLs navigated to during a trace, in order. -/
def gotoUrls (tr : List TEv) : List String :=
  tr.filterMap fun e =>
    match e with
    | .goto u _ => some u
    | _ => none

/-! ## `cli.ts`: timeout configuration (lines 16-42) and the tool handlers -/

/-- The constant `DEFAULT_TIMEOUT` (cli.ts line 16). -/
def DEFAULT_TIMEOUT : ℕ := 30000

/-- Leading-integer parse modelling `parseInt(s, 10)`: optional leading
whitespace and sign, then leading decimal digits; `none` models `NaN`. -/
def parseIntJs (s : String) : Option ℤ :=
  let t := s.data.dropWhile fun c => isJsWhitespace c
  let sign : ℤ × List Char :=
    match t with
    | '-' :: rest => (-1, rest)
    | '+' :: rest => (1, rest)
    | _ => (1, t)
  let digits := sign.2.takeWhile Char.isDigit
  if digits.isEmpty then none
  else some (sign.1 * (digits.foldl (fun a c => a * 10 + (c.toNat - 48)) 0 : ℕ))

/-- `getConfiguredTimeout` (cli.ts lines 19-38): the `REDNOTE_TIMEOUT`
environment variable wins when it parses to a positive integer, then a
`--timeout=` command-line argument, else `DEFAULT_TIMEOUT`. -/
def getConfiguredTimeout (envVar : Option String) (argv : List String) : ℤ :=
  match envVar.bind parseIntJs with
  | some n =>
    if 0 < n then n
    else fromArgv argv
  | none => fromArgv argv
where
  /-- The `--timeout=` command-line fallback (cli.ts lines 29-35). -/
  fromArgv (argv : List String) : ℤ :=
    match (argv.filter fun a => a.startsWith "--timeout=").head? with
    | some arg =>
      match parseIntJs (arg.drop 10) with
      | some n => if 0 < n then n else (DEFAULT_TIMEOUT : ℤ)
      | none => (DEFAULT_TIMEOUT : ℤ)
    | none => (DEFAULT_TIMEOUT : ℤ)

/-- The operation timeout a tool handler computes and passes explicitly to
the `RedNoteTools` call (cli.ts line 89 and its analogues):
`timeout || DEFAULT_TIMEOUT` — the module-level configured timeout is *not*
consulted here. -/
def handlerOperationTimeout (callT : Option ℕ) : ℕ :=
  match callT with
  | some t => if t ≠ 0 then t else DEFAULT_TIMEOUT
  | none => DEFAULT_TIMEOUT

/-! ## Helper lemmas -/

lemma divQ_eq_div (a : ℚ) (n : ℕ) : divQ a n = a / n := by
  rw [divQ, Rat.mkRat_eq_div]
  push_cast
  rw [div_mul_eq_div_div, Rat.num_div_den]

lemma qmin_divQ3 (t : ℚ) : qmin 10000 (t / 3) = qmin 10000 (divQ t 3) := by
  rw [divQ_eq_div t 3]
  norm_num

lemma containsSub_msgA (label : String) (b : ℚ) (err : String) :
    containsSub (label ++ renderQ b ++ "ms): " ++ err) (renderQ b ++ "ms") := by
  refine ⟨label.data, "): ".data ++ err.data, ?_⟩
  have h2 : ("ms): " : String).data = "ms".data ++ "): ".data := rfl
  simp [String.data_append, h2, List.append_assoc]

lemma containsSub_msgB (label : String) (b : ℚ) :
    containsSub (label ++ renderQ b ++ "ms)") (renderQ b ++ "ms") := by
  refine ⟨label.data, ")".data, ?_⟩
  have h2 : ("ms)" : String).data = "ms".data ++ ")".data := rfl
  simp [String.data_append, h2, List.append_assoc]

/-- Every event of an `initTools` trace is a launch, page-open, cookie-load,
navigation or probe-evaluation event. -/
lemma mem_initTools (env : InitEnv) (t : ℚ) (e : TEv) (he : e ∈ (initTools env t).1) :
    e = TEv.launchBrowser ∨ e = TEv.reuseAuthBrowser ∨ e = TEv.newPage ∨
      (∃ n, e = TEv.addCookies n) ∨ (∃ u b, e = TEv.goto u b) ∨
      e = TEv.evalLoginCheck := by
  unfold initTools at he
  by_cases hb : env.browserAlreadyOpen
  · simp [hb] at he
  · by_cases ha : env.authBrowserLaunched <;> by_cases hc : 0 < env.cookies <;>
      by_cases hg : env.gotoHomeOk = true <;>
      rcases he2 : env.evalResult with _ | b
    all_goals try cases b
    all_goals simp [hb, ha, hc, hg, he2] at he
    all_goals aesop

/-- When the browser has to be opened, the `initTools` trace navigates once,
to the home page, and with a good navigation and a positive probe the
initialization succeeds. -/
lemma initTools_home (env : InitEnv) (t : ℚ) (hb : env.browserAlreadyOpen = false)
    (hg : env.gotoHomeOk = true) (he : env.evalResult = some true) :
    gotoUrls (initTools env t).1 = [homeUrl] ∧ (initTools env t).2 = none := by
  by_cases ha : env.authBrowserLaunched <;> by_cases hc : 0 < env.cookies <;>
    simp [initTools, gotoUrls, hb, ha, hg, he, hc]

/-! ## Claim theorems -/

/-- C6: for every URL input, the note returned by the note-detail workflow has
its `url` field equal to the caller's original input string, whatever URL the
internal link resolution produced and whatever URL the external detail
extractor reports. -/
theorem C6_note_detail_preserves_caller_url (url : String) (callT : Option ℚ)
    (instT : ℚ) (env : DetailEnv) (nd : NoteDetailV)
    (h : (getNoteContentM url callT instT env).2 = .ok nd) :
    nd.url = url := by
  simp only [getNoteContentM] at h
  split at h
  · simp at h
  · split at h
    · simp at h
    · split at h
      · simp at h
      · simp at h
        subst h
        rfl

/-- C6 witness: a shortened share link is preserved verbatim in the result
even though navigation used the resolved canonical URL. -/
theorem C6_note_detail_preserves_caller_url_witness :
    ({ title := "T", content := "C", url := "http://xhslink.com/abc" } : NoteDetailV).url
      = "http://xhslink.com/abc" :=
  C6_note_detail_preserves_caller_url "http://xhslink.com/abc" none 30000
    { init := { browserAlreadyOpen := false, authBrowserLaunched := false, cookies := 2, gotoHomeOk := true,
                evalResult := some true },
      gotoOk := true,
      detail := .ok { title := "T", content := "C",
                      url := "https://www.xiaohongshu.com/discovery/item/xyz" } }
    _ (by decide)

/-- C8: the tool handlers compute `timeout || DEFAULT_TIMEOUT` and pass it
explicitly, so a configured default of 60000 (via `REDNOTE_TIMEOUT`) is never
consulted on a call that omits the per-call timeout: the operation runs with
the constant 30000 instead of the configured instance default. -/
theorem C8_configured_default_not_applied :
    getConfiguredTimeout (some "60000") [] = 60000 ∧
    handlerOperationTimeout none = DEFAULT_TIMEOUT ∧
    toolsEffectiveTimeout (some 30000) 60000 = 30000 ∧
    handlerOperationTimeout none ≠ 60000 ∧
    handlerOperationTimeout (some 45000) = 45000 := by
  refine ⟨by decide, rfl, by norm_num [toolsEffectiveTimeout], by decide, rfl⟩

/-- C10: the comments workflow navigates to exactly the caller-supplied URL
(no share-link resolution), while the note-detail workflow navigates to the
`extractRedBookUrl`-resolved URL; in both traces the only other navigation is
the initialization's home-page one. -/
theorem C10_comments_no_link_resolution (url : String) (callT : Option ℚ) (instT : ℚ)
    (envC : CommentsEnv) (envD : DetailEnv)
    (hC1 : envC.init.browserAlreadyOpen = false) (hC2 : envC.init.gotoHomeOk = true)
    (hC3 : envC.init.evalResult = some true)
    (hD1 : envD.init.browserAlreadyOpen = false) (hD2 : envD.init.gotoHomeOk = true)
    (hD3 : envD.init.evalResult = some true) :
    gotoUrls (getNoteCommentsM url callT instT envC).1 = [homeUrl, url] ∧
    gotoUrls (getNoteContentM url callT instT envD).1 = [homeUrl, extractRedBookUrl url] := by
  obtain ⟨hCg, hCok⟩ := initTools_home envC.init (toolsEffectiveTimeout callT instT) hC1 hC2 hC3
  obtain ⟨hDg, hDok⟩ := initTools_home envD.init (toolsEffectiveTimeout callT instT) hD1 hD2 hD3
  simp only [gotoUrls] at hCg hDg
  constructor
  · simp only [getNoteCommentsM, hCok]
    split_ifs <;> simp [gotoUrls, List.filterMap_append, toolsCleanup, hCg]
  · simp only [getNoteContentM, hDok]
    rcases hd : envD.detail with m | nd <;> split_ifs <;>
      simp [gotoUrls, List.filterMap_append, toolsCleanup, hDg, hd]

/-- C10 witness: for a share text that the resolver would rewrite, the
comments workflow still navigates to the share text itself, while the
note-detail workflow navigates to the resolved short link. -/
theorem C10_comments_no_link_resolution_witness :
    gotoUrls (getNoteCommentsM "xx http://xhslink.com/a/b1 yy" none 30000
        { init := { browserAlreadyOpen := false, authBrowserLaunched := false, cookies := 0, gotoHomeOk := true,
                    evalResult := some true },
          gotoOk := true, commentsOk := true, comments := [] }).1
      = [homeUrl, "xx http://xhslink.com/a/b1 yy"] ∧
    gotoUrls (getNoteContentM "xx http://xhslink.com/a/b1 yy" none 30000
        { init := { browserAlreadyOpen := false, authBrowserLaunched := false, cookies := 0, gotoHomeOk := true,
                    evalResult := some true },
          gotoOk := true, detail := .ok { title := "", content := "", url := "" } }).1
      = [homeUrl, extractRedBookUrl "xx http://xhslink.com/a/b1 yy"] :=
  C10_comments_no_link_resolution "xx http://xhslink.com/a/b1 yy" none 30000
    _ _ rfl rfl rfl rfl rfl rfl

/-- The browser itself is never closed during initialization. -/
lemma closeBrowser_not_mem_initTools (env : InitEnv) (t : ℚ) :
    TEv.closeBrowser ∉ (initTools env t).1 := by
  intro hmem
  rcases mem_initTools env t _ hmem with h | h | h | ⟨n, h⟩ | ⟨u, b, h⟩ | h <;> simp at h

/-- When `AuthManager` already holds a browser handle, initialization reuses
it (stale or not) and never launches a fresh browser. -/
lemma launchBrowser_not_mem_initTools_reuse (env : InitEnv) (t : ℚ)
    (ha : env.authBrowserLaunched = true) :
    TEv.launchBrowser ∉ (initTools env t).1 := by
  intro hmem
  unfold initTools at hmem
  by_cases hb : env.browserAlreadyOpen <;> by_cases hc : 0 < env.cookies <;>
    by_cases hg : env.gotoHomeOk = true <;> rcases he2 : env.evalResult with _ | b
  all_goals try cases b
  all_goals simp [hb, ha, hc, hg, he2] at hmem

lemma launchBrowser_not_mem_itemTrace (i : ℕ) (o : ItemOutcome) :
    TEv.launchBrowser ∉ itemTrace i o := by
  cases o <;> simp [itemTrace]

lemma launchBrowser_not_mem_itemsTrace (l : List ItemOutcome) :
    ∀ i, TEv.launchBrowser ∉ itemsTrace i l := by
  induction l with
  | nil => intro i; simp [itemsTrace]
  | cons o rest ih =>
    intro i hmem
    have hsplit : TEv.launchBrowser ∈ itemTrace i o ∨
        TEv.launchBrowser ∈ itemsTrace (i + 1) rest := by
      cases o with
      | ok n => exact List.mem_append.mp (by simpa [itemsTrace] using hmem)
      | nullNote => exact List.mem_append.mp (by simpa [itemsTrace] using hmem)
      | fail r =>
        cases r with
        | throws m => exact Or.inl (by simpa [itemsTrace] using hmem)
        | closed => exact List.mem_append.mp (by simpa [itemsTrace] using hmem)
        | noButton => exact List.mem_append.mp (by simpa [itemsTrace] using hmem)
      | okThenFail n r =>
        cases r with
        | throws m => exact Or.inl (by simpa [itemsTrace] using hmem)
        | closed => exact List.mem_append.mp (by simpa [itemsTrace] using hmem)
        | noButton => exact List.mem_append.mp (by simpa [itemsTrace] using hmem)
    rcases hsplit with h | h
    · exact launchBrowser_not_mem_itemTrace i o h
    · exact ih (i + 1) h

/-- Environment for the C4 counterexample: a plain, fully successful
one-item search call. -/
def envC4 : SearchEnv :=
  { init := { browserAlreadyOpen := false, authBrowserLaunched := false, cookies := 1, gotoHomeOk := true,
              evalResult := some true },
    gotoSearchOk := true, resultsOk := true,
    items := [ItemOutcome.ok { title := "t", content := "c", url := "u",
                               author := "a", likes := 1, collects := 2, comments := 3 }] }

/-- C4 counterexample: on a plain successful search call the shared browser
process *is* closed by the per-call cleanup (`RedNoteTools.cleanup` calls
`browser.close()`), contradicting the claim that the browser is not closed
per-call and only at orchestrator teardown. -/
theorem C4_counterexample :
    TEv.closeBrowser ∈ (searchNotesM "kw" 1 none 30000 envC4).1 ∧
    (searchNotesM "kw" 1 none 30000 envC4).2 =
      .ok [{ title := "t", content := "c", url := "u", author := "a",
             likes := 1, collects := 2, comments := 3 }] := by
  exact ⟨by decide, by decide⟩

/-- C4 (amended): each workflow call that gets past initialization closes the
whole shared browser (and with it the page and context) in its `finally`
cleanup; a call failing during initialization closes nothing (initialization
runs outside the `try`); no fresh browser is launched by a call while
`AuthManager` still holds its (now stale, closed) handle — `getBrowser`
launches only when that never-nulled field is empty; and
`AuthManager.cleanup`, the orchestrator teardown, closes the page and the
context but never the browser process. -/
theorem C4_cleanup_behaviour (callT : Option ℚ) (instT : ℚ) :
    (∀ kw limit (env : SearchEnv),
      ((initTools env.init (toolsEffectiveTimeout callT instT)).2 = none →
        TEv.closeBrowser ∈ (searchNotesM kw limit callT instT env).1) ∧
      (∀ m, (initTools env.init (toolsEffectiveTimeout callT instT)).2 = some m →
        TEv.closeBrowser ∉ (searchNotesM kw limit callT instT env).1)) ∧
    (∀ url (env : DetailEnv),
      ((initTools env.init (toolsEffectiveTimeout callT instT)).2 = none →
        TEv.closeBrowser ∈ (getNoteContentM url callT instT env).1) ∧
      (∀ m, (initTools env.init (toolsEffectiveTimeout callT instT)).2 = some m →
        TEv.closeBrowser ∉ (getNoteContentM url callT instT env).1)) ∧
    (∀ url (env : CommentsEnv),
      ((initTools env.init (toolsEffectiveTimeout callT instT)).2 = none →
        TEv.closeBrowser ∈ (getNoteCommentsM url callT instT env).1) ∧
      (∀ m, (initTools env.init (toolsEffectiveTimeout callT instT)).2 = some m →
        TEv.closeBrowser ∉ (getNoteCommentsM url callT instT env).1)) ∧
    (∀ kw limit (env : SearchEnv), env.init.authBrowserLaunched = true →
      TEv.launchBrowser ∉ (searchNotesM kw limit callT instT env).1) ∧
    (∀ url (env : DetailEnv), env.init.authBrowserLaunched = true →
      TEv.launchBrowser ∉ (getNoteContentM url callT instT env).1) ∧
    (∀ url (env : CommentsEnv), env.init.authBrowserLaunched = true →
      TEv.launchBrowser ∉ (getNoteCommentsM url callT instT env).1) ∧
    (∀ p c, AEv.closeBrowser ∉ authCleanup p c) ∧
    authCleanup true true = [AEv.closePage, AEv.closeContext] := by
  refine ⟨?_, ?_, ?_, ?_, ?_, ?_, ?_, by simp [authCleanup]⟩
  · intro kw limit env
    constructor
    · intro h
      simp [searchNotesM, h, toolsCleanup, List.mem_append]
    · intro m h
      simp only [searchNotesM, h]
      exact closeBrowser_not_mem_initTools env.init _
  · intro url env
    constructor
    · intro h
      simp [getNoteContentM, h, toolsCleanup, List.mem_append]
    · intro m h
      simp only [getNoteContentM, h]
      exact closeBrowser_not_mem_initTools env.init _
  · intro url env
    constructor
    · intro h
      simp [getNoteCommentsM, h, toolsCleanup, List.mem_append]
    · intro m h
      simp only [getNoteCommentsM, h]
      exact closeBrowser_not_mem_initTools env.init _
  · intro kw limit env ha hmem
    have h1 := launchBrowser_not_mem_initTools_reuse env.init
      (toolsEffectiveTimeout callT instT) ha
    have h2 := launchBrowser_not_mem_itemsTrace (env.items.take limit) 0
    rcases hi : (initTools env.init (toolsEffectiveTimeout callT instT)).2 with _ | m <;>
      by_cases hg : env.gotoSearchOk <;> by_cases hr : env.resultsOk <;>
      simp [searchNotesM, hi, hg, hr, toolsCleanup, List.mem_append] at hmem <;>
      tauto
  · intro url env ha hmem
    have h1 := launchBrowser_not_mem_initTools_reuse env.init
      (toolsEffectiveTimeout callT instT) ha
    rcases hi : (initTools env.init (toolsEffectiveTimeout callT instT)).2 with _ | m <;>
      rcases hd : env.detail with m2 | nd <;> by_cases hg : env.gotoOk <;>
      simp [getNoteContentM, hi, hd, hg, toolsCleanup, List.mem_append] at hmem <;>
      tauto
  · intro url env ha hmem
    have h1 := launchBrowser_not_mem_initTools_reuse env.init
      (toolsEffectiveTimeout callT instT) ha
    rcases hi : (initTools env.init (toolsEffectiveTimeout callT instT)).2 with _ | m <;>
      by_cases hg : env.gotoOk <;> by_cases hc2 : env.commentsOk <;>
      simp [getNoteCommentsM, hi, hg, hc2, toolsCleanup, List.mem_append] at hmem <;>
      tauto
  · intro p c
    simp [authCleanup]

/-- Environment whose initialization fails (the home-page navigation times
out), exercising the no-cleanup path. -/
def envC4fail : SearchEnv :=
  { init := { browserAlreadyOpen := false, authBrowserLaunched := false, cookies := 0, gotoHomeOk := false,
              evalResult := some true },
    gotoSearchOk := true, resultsOk := true, items := [] }

/-- C4 witness: a successful comments call closes the browser; a search call
that fails during initialization closes nothing; a call made while
`AuthManager` still holds its stale handle launches no fresh browser. -/
theorem C4_cleanup_behaviour_witness :
    TEv.closeBrowser ∈ (getNoteCommentsM "u" none 30000
      { init := { browserAlreadyOpen := false, authBrowserLaunched := false, cookies := 0, gotoHomeOk := true,
                  evalResult := some true },
        gotoOk := true, commentsOk := true, comments := [] }).1 ∧
    TEv.closeBrowser ∉ (searchNotesM "kw" 5 none 30000 envC4fail).1 ∧
    TEv.launchBrowser ∉ (getNoteCommentsM "u" none 30000
      { init := { browserAlreadyOpen := false, authBrowserLaunched := true, cookies := 0, gotoHomeOk := true,
                  evalResult := some true },
        gotoOk := true, commentsOk := true, comments := [] }).1 :=
  ⟨((C4_cleanup_behaviour none 30000).2.2.1 "u" _).1 (by decide),
    ((C4_cleanup_behaviour none 30000).1 "kw" 5 envC4fail).2
      "初始化访问主页超时 (30000ms)" (by decide),
    (C4_cleanup_behaviour none 30000).2.2.2.2.2.1 "u" _ rfl⟩

/-! ### AuthManager lemmas -/

/-- Bool classifier for context-creation events (one per login attempt). -/
def isNewContext : AEv → Bool
  | .newContext => true
  | _ => false

/-- Bool classifier for page-close events. -/
def isClosePage : AEv → Bool
  | .closePage => true
  | _ => false

/-- Bool classifier for context-close events. -/
def isCloseContext : AEv → Bool
  | .closeContext => true
  | _ => false

lemma dialogPhase_acc_subset (t : ℚ) (env : AttemptEnv) (acc : List AEv) :
    acc ⊆ (loginDialogPhase t env acc).1 := by
  intro x hx
  unfold loginDialogPhase
  split_ifs <;> simp [List.mem_append, hx]

lemma mem_dialogPhase (t : ℚ) (env : AttemptEnv) (acc : List AEv) (e : AEv)
    (he : e ∈ (loginDialogPhase t env acc).1) :
    e ∈ acc ∨ e = AEv.waitDialog (qmin 10000 (divQ t 3)) ∨ e = AEv.waitQr (qmin 10000 (divQ t 3)) ∨
      e = AEv.waitHuman t ∨ e = AEv.probe ∨ e = AEv.saveCookies := by
  unfold loginDialogPhase at he
  split_ifs at he <;> simp [List.mem_append] at he <;> tauto

lemma mem_loginAttempt (t : ℚ) (env : AttemptEnv) (e : AEv)
    (he : e ∈ (loginAttempt t env).1) :
    e = AEv.newContext ∨ e = AEv.newPage ∨ e = AEv.addCookies env.cookies ∨
      e = AEv.gotoExplore (qmin 10000 (divQ t 3)) ∨ e = AEv.querySidebar ∨
      e = AEv.probe ∨ e = AEv.saveCookies ∨ e = AEv.waitDialog (qmin 10000 (divQ t 3)) ∨
      e = AEv.waitQr (qmin 10000 (divQ t 3)) ∨ e = AEv.waitHuman t := by
  unfold loginAttempt at he
  by_cases hc : 0 < env.cookies <;> by_cases hg : env.gotoOk <;>
    by_cases hs : env.sidebarPresent <;> by_cases hp : env.probeLoggedIn <;>
    simp [hc, hg, hs, hp, List.mem_append] at he
  all_goals
    try (rcases mem_dialogPhase _ _ _ _ he with h | h | h | h | h | h <;>
      (try simp [List.mem_append] at h) <;> tauto)
  all_goals tauto

lemma closeBrowser_not_mem_attempt (t : ℚ) (env : AttemptEnv) :
    AEv.closeBrowser ∉ (loginAttempt t env).1 := by
  intro hmem
  rcases mem_loginAttempt t env _ hmem with
    h | h | h | h | h | h | h | h | h | h <;> simp at h

lemma dialogPhase_countP (p : AEv → Bool) (t : ℚ) (env : AttemptEnv) (acc : List AEv)
    (hd : ∀ b, p (AEv.waitDialog b) = false) (hqr : ∀ b, p (AEv.waitQr b) = false)
    (hh : ∀ b, p (AEv.waitHuman b) = false) (hprobe : p AEv.probe = false)
    (hsave : p AEv.saveCookies = false) :
    ((loginDialogPhase t env acc).1).countP p = acc.countP p := by
  unfold loginDialogPhase
  split_ifs <;>
    simp [List.countP_append, List.countP_cons, hd, hqr, hh, hprobe, hsave]

lemma attempt_countP (p : AEv → Bool) (t : ℚ) (env : AttemptEnv)
    (hpage : p AEv.newPage = false) (hadd : ∀ n, p (AEv.addCookies n) = false)
    (hgoto : ∀ b, p (AEv.gotoExplore b) = false) (hq : p AEv.querySidebar = false)
    (hprobe : p AEv.probe = false) (hsave : p AEv.saveCookies = false)
    (hd : ∀ b, p (AEv.waitDialog b) = false) (hqr : ∀ b, p (AEv.waitQr b) = false)
    (hh : ∀ b, p (AEv.waitHuman b) = false) :
    ((loginAttempt t env).1).countP p = if p AEv.newContext then 1 else 0 := by
  unfold loginAttempt
  by_cases hc : 0 < env.cookies <;> by_cases hg : env.gotoOk <;>
    by_cases hs : env.sidebarPresent <;> by_cases hp : env.probeLoggedIn <;>
    simp [hc, hg, hs, hp, dialogPhase_countP, List.countP_append, List.countP_cons,
      hpage, hadd, hgoto, hq, hprobe, hsave, hd, hqr, hh]

lemma attempt_countP_newContext (t : ℚ) (env : AttemptEnv) :
    ((loginAttempt t env).1).countP isNewContext = 1 := by
  have h := attempt_countP isNewContext t env rfl (fun n => rfl) (fun b => rfl) rfl rfl
    rfl (fun b => rfl) (fun b => rfl) (fun b => rfl)
  rw [h]
  rfl

lemma attempt_countP_closePage (t : ℚ) (env : AttemptEnv) :
    ((loginAttempt t env).1).countP isClosePage = 0 := by
  have h := attempt_countP isClosePage t env rfl (fun n => rfl) (fun b => rfl) rfl rfl
    rfl (fun b => rfl) (fun b => rfl) (fun b => rfl)
  rw [h]
  rfl

lemma attempt_countP_closeContext (t : ℚ) (env : AttemptEnv) :
    ((loginAttempt t env).1).countP isCloseContext = 0 := by
  have h := attempt_countP isCloseContext t env rfl (fun n => rfl) (fun b => rfl) rfl rfl
    rfl (fun b => rfl) (fun b => rfl) (fun b => rfl)
  rw [h]
  rfl

lemma loginFrom_succ_ok (t : ℚ) (env : ℕ → AttemptEnv) (idx r : ℕ)
    (h : (loginAttempt t (env idx)).2 = .ok ()) :
    loginFrom t env (r + 1) idx = ((loginAttempt t (env idx)).1, .ok ()) := by
  simp [loginFrom, h]

lemma loginFrom_succ_err (t : ℚ) (env : ℕ → AttemptEnv) (idx r : ℕ) (e : String)
    (h : (loginAttempt t (env idx)).2 = .error e) :
    loginFrom t env (r + 1) idx =
      if r = 0 then
        ((loginAttempt t (env idx)).1 ++ [AEv.closePage, AEv.closeContext],
          .error ("登录失败，已达到最大重试次数 (" ++ toString maxRetries ++ "): " ++ e))
      else
        ((loginAttempt t (env idx)).1 ++ [AEv.closePage, AEv.closeContext] ++
            [AEv.backoff 2000] ++ (loginFrom t env r (idx + 1)).1,
          (loginFrom t env r (idx + 1)).2) := by
  simp only [loginFrom, h]

lemma attempt_subset_loginFrom (t : ℚ) (env : ℕ → AttemptEnv) (idx r : ℕ) :
    (loginAttempt t (env idx)).1 ⊆ (loginFrom t env (r + 1) idx).1 := by
  intro x hx
  rcases ha : (loginAttempt t (env idx)).2 with e0 | u
  · rw [loginFrom_succ_err t env idx r e0 ha]
    split_ifs <;> simp [List.mem_append, hx]
  · cases u
    rw [loginFrom_succ_ok t env idx r ha]
    exact hx

lemma mem_loginFrom (t : ℚ) (env : ℕ → AttemptEnv) (r idx : ℕ) (e : AEv)
    (he : e ∈ (loginFrom t env r idx).1) :
    (∃ k, e ∈ (loginAttempt t (env k)).1) ∨ e = AEv.closePage ∨ e = AEv.closeContext ∨
      e = AEv.backoff 2000 := by
  induction r generalizing idx with
  | zero => simp [loginFrom] at he
  | succ r ih =>
    rcases ha : (loginAttempt t (env idx)).2 with e0 | u
    · rw [loginFrom_succ_err t env idx r e0 ha] at he
      by_cases hr : r = 0
      · subst hr
        simp [List.mem_append] at he
        have H : e ∈ (loginAttempt t (env idx)).1 ∨ e = AEv.closePage ∨
            e = AEv.closeContext := by tauto
        rcases H with h | h | h
        · exact Or.inl ⟨idx, h⟩
        · exact Or.inr (Or.inl h)
        · exact Or.inr (Or.inr (Or.inl h))
      · simp [hr, List.mem_append] at he
        have H : e ∈ (loginAttempt t (env idx)).1 ∨ e = AEv.closePage ∨
            e = AEv.closeContext ∨ e = AEv.backoff 2000 ∨
            e ∈ (loginFrom t env r (idx + 1)).1 := by tauto
        rcases H with h | h | h | h | h
        · exact Or.inl ⟨idx, h⟩
        · exact Or.inr (Or.inl h)
        · exact Or.inr (Or.inr (Or.inl h))
        · exact Or.inr (Or.inr (Or.inr h))
        · exact ih (idx + 1) h
    · cases u
      rw [loginFrom_succ_ok t env idx r ha] at he
      exact Or.inl ⟨idx, he⟩

lemma mem_login (t : ℚ) (env : ℕ → AttemptEnv) (e : AEv) (he : e ∈ (login t env).1) :
    e = AEv.launch ∨ (∃ k, e ∈ (loginAttempt t (env k)).1) ∨ e = AEv.closePage ∨
      e = AEv.closeContext ∨ e = AEv.backoff 2000 := by
  simp [login] at he
  rcases he with he | he
  · exact Or.inl he
  · rcases mem_loginFrom t env maxRetries 0 e he with h | h | h | h <;> tauto

lemma waitDialog_mem_dialogPhase (t : ℚ) (env : AttemptEnv) (acc : List AEv) :
    AEv.waitDialog (qmin 10000 (divQ t 3)) ∈ (loginDialogPhase t env acc).1 := by
  unfold loginDialogPhase
  split_ifs <;> simp [List.mem_append]

lemma waitQr_mem_dialogPhase (t : ℚ) (env : AttemptEnv) (acc : List AEv)
    (hd : env.dialogAppears = true) :
    AEv.waitQr (qmin 10000 (divQ t 3)) ∈ (loginDialogPhase t env acc).1 := by
  unfold loginDialogPhase
  simp only [hd]
  split_ifs <;> simp_all [List.mem_append]

lemma waitHuman_mem_dialogPhase (t : ℚ) (env : AttemptEnv) (acc : List AEv)
    (hd : env.dialogAppears = true) (hq : env.qrAppears = true) :
    AEv.waitHuman t ∈ (loginDialogPhase t env acc).1 := by
  unfold loginDialogPhase
  simp only [hd, hq]
  split_ifs <;> simp_all [List.mem_append]

lemma gotoExplore_mem_attempt (t : ℚ) (env : AttemptEnv) :
    AEv.gotoExplore (qmin 10000 (divQ t 3)) ∈ (loginAttempt t env).1 := by
  unfold loginAttempt
  by_cases hc : 0 < env.cookies <;> by_cases hg : env.gotoOk <;>
    by_cases hs : env.sidebarPresent <;> by_cases hp : env.probeLoggedIn <;>
    simp only [hc, hg, hs, hp, Bool.not_true, Bool.not_false, ite_true, ite_false,
      if_true, if_false]
  all_goals
    first
      | exact dialogPhase_acc_subset t env _ (by simp [List.mem_append, hc])
      | simp [List.mem_append, hc]

/-- C2: every landing-page navigation, login-dialog wait and QR wait in a
login trace is bounded by exactly `min(10000, total/3)`, every human-paced
wait by exactly `total`; the landing navigation always happens, and on the
path that reaches the dialog the three waits all occur with those bounds. -/
theorem C2_login_timeout_budget (t : ℚ) (env : ℕ → AttemptEnv) :
    (∀ b, AEv.gotoExplore b ∈ (login t env).1 → b = qmin 10000 (t / 3)) ∧
    (∀ b, AEv.waitDialog b ∈ (login t env).1 → b = qmin 10000 (t / 3)) ∧
    (∀ b, AEv.waitQr b ∈ (login t env).1 → b = qmin 10000 (t / 3)) ∧
    (∀ b, AEv.waitHuman b ∈ (login t env).1 → b = t) ∧
    AEv.gotoExplore (qmin 10000 (t / 3)) ∈ (login t env).1 ∧
    ((env 0).gotoOk = true → (env 0).sidebarPresent = false →
      (env 0).dialogAppears = true → (env 0).qrAppears = true →
      AEv.waitDialog (qmin 10000 (t / 3)) ∈ (login t env).1 ∧
      AEv.waitQr (qmin 10000 (t / 3)) ∈ (login t env).1 ∧
      AEv.waitHuman t ∈ (login t env).1) := by
  rw [qmin_divQ3 t]
  have hsub : (loginAttempt t (env 0)).1 ⊆ (login t env).1 := by
    intro x hx
    have h1 : x ∈ (loginFrom t env maxRetries 0).1 := by
      rw [show maxRetries = 2 + 1 from rfl]
      exact attempt_subset_loginFrom t env 0 2 hx
    simp [login, h1]
  refine ⟨?_, ?_, ?_, ?_, ?_, ?_⟩
  · intro b hb
    rcases mem_login t env _ hb with h | ⟨k, h⟩ | h | h | h
    all_goals try simp at h
    rcases mem_loginAttempt t (env k) _ h with
      h | h | h | h | h | h | h | h | h | h <;> simp_all
  · intro b hb
    rcases mem_login t env _ hb with h | ⟨k, h⟩ | h | h | h
    all_goals try simp at h
    rcases mem_loginAttempt t (env k) _ h with
      h | h | h | h | h | h | h | h | h | h <;> simp_all
  · intro b hb
    rcases mem_login t env _ hb with h | ⟨k, h⟩ | h | h | h
    all_goals try simp at h
    rcases mem_loginAttempt t (env k) _ h with
      h | h | h | h | h | h | h | h | h | h <;> simp_all
  · intro b hb
    rcases mem_login t env _ hb with h | ⟨k, h⟩ | h | h | h
    all_goals try simp at h
    rcases mem_loginAttempt t (env k) _ h with
      h | h | h | h | h | h | h | h | h | h <;> simp_all
  · exact hsub (gotoExplore_mem_attempt t (env 0))
  · intro hg hs hd hq
    have hatt : ∀ e, e ∈ (loginDialogPhase t (env 0)
        ([AEv.newContext, AEv.newPage]
          ++ (if 0 < (env 0).cookies then [AEv.addCookies (env 0).cookies] else [])
          ++ [AEv.gotoExplore (qmin 10000 (divQ t 3))] ++ [AEv.querySidebar])).1 →
        e ∈ (loginAttempt t (env 0)).1 := by
      intro e hmem
      unfold loginAttempt
      simp only [hg, hs, Bool.not_true, ite_false, ite_true, if_false, if_true]
      simpa using hmem
    exact ⟨hsub (hatt _ (waitDialog_mem_dialogPhase t (env 0) _)),
      hsub (hatt _ (waitQr_mem_dialogPhase t (env 0) _ hd)),
      hsub (hatt _ (waitHuman_mem_dialogPhase t (env 0) _ hd hq))⟩

/-- Environment used to witness C2: no prior cookies, sidebar absent, dialog
and QR appear, the user completes the login. -/
def cenvC2 : ℕ → AttemptEnv := fun _ =>
  { cookies := 0, gotoOk := true, gotoErr := "", sidebarPresent := false,
    probeLoggedIn := false, dialogAppears := true, dialogErr := "",
    qrAppears := true, qrErr := "", humanAppears := true, humanErr := "",
    verifyOk := true }

/-- C2 witness: at `total = 60000` the dialog and QR waits receive
`min(10000, 60000/3) = 10000` and the human wait receives 60000. -/
theorem C2_login_timeout_budget_witness :
    AEv.waitDialog (qmin 10000 (60000 / 3)) ∈ (login 60000 cenvC2).1 ∧
    AEv.waitQr (qmin 10000 (60000 / 3)) ∈ (login 60000 cenvC2).1 ∧
    AEv.waitHuman 60000 ∈ (login 60000 cenvC2).1 :=
  (C2_login_timeout_budget 60000 cenvC2).2.2.2.2.2 rfl rfl rfl rfl

/-- C3: the login loop makes at most `maxRetries = 3` attempts (at most three
contexts are ever created), never closes the browser process, waits a
constant 2000ms between failed attempts, and when it fails it fails after
exactly three attempts, with a terminal message carrying the literal `3` and
wrapping the third attempt's cause, having closed page and context once per
failed attempt. -/
theorem C3_login_retry_policy (t : ℚ) (env : ℕ → AttemptEnv) :
    ((login t env).1.countP isNewContext ≤ 3) ∧
    AEv.closeBrowser ∉ (login t env).1 ∧
    (∀ b, AEv.backoff b ∈ (login t env).1 → b = 2000) ∧
    (∀ m, (login t env).2 = .error m →
      ∃ c, (loginAttempt t (env 2)).2 = .error c ∧
        m = "登录失败，已达到最大重试次数 (3): " ++ c ∧
        (login t env).1.countP isClosePage = 3 ∧
        (login t env).1.countP isCloseContext = 3) := by
  refine ⟨?_, ?_, ?_, ?_⟩
  · have hlf : ∀ r idx, ((loginFrom t env r idx).1.countP isNewContext) ≤ r := by
      intro r
      induction r with
      | zero => intro idx; simp [loginFrom]
      | succ r ih =>
        intro idx
        rcases ha : (loginAttempt t (env idx)).2 with e0 | u
        · rw [loginFrom_succ_err t env idx r e0 ha]
          by_cases hr : r = 0
          · subst hr
            simp [List.countP_append, List.countP_cons, attempt_countP_newContext,
              isNewContext]
          · simp only [hr, if_neg, ite_false]
            simp [List.countP_append, List.countP_cons, attempt_countP_newContext,
              isNewContext]
            have := ih (idx + 1)
            omega
        · cases u
          rw [loginFrom_succ_ok t env idx r ha]
          rw [attempt_countP_newContext]
          omega
    have h0 := hlf maxRetries 0
    simp only [login, List.countP_cons]
    simp [isNewContext]
    exact h0
  · intro hmem
    rcases mem_login t env _ hmem with h | ⟨k, h⟩ | h | h | h
    · simp at h
    · exact closeBrowser_not_mem_attempt t (env k) h
    · simp at h
    · simp at h
    · simp at h
  · intro b hb
    rcases mem_login t env _ hb with h | ⟨k, h⟩ | h | h | h
    · simp at h
    · rcases mem_loginAttempt t (env k) _ h with
        h | h | h | h | h | h | h | h | h | h <;> simp_all
    · simp at h
    · simp at h
    · simp_all
  · intro m hm
    have hm2 : (loginFrom t env 3 0).2 = .error m := by
      simpa [login, maxRetries] using hm
    rcases h0 : (loginAttempt t (env 0)).2 with c0 | u
    swap
    · cases u
      rw [show (3 : ℕ) = 2 + 1 from rfl, loginFrom_succ_ok t env 0 2 h0] at hm2
      simp at hm2
    rcases h1 : (loginAttempt t (env 1)).2 with c1 | u
    swap
    · cases u
      rw [show (3 : ℕ) = 2 + 1 from rfl, loginFrom_succ_err t env 0 2 c0 h0] at hm2
      norm_num at hm2
      rw [show (2 : ℕ) = 1 + 1 from rfl, loginFrom_succ_ok t env 1 1 h1] at hm2
      simp at hm2
    rcases h2 : (loginAttempt t (env 2)).2 with c2 | u
    swap
    · cases u
      rw [show (3 : ℕ) = 2 + 1 from rfl, loginFrom_succ_err t env 0 2 c0 h0] at hm2
      norm_num at hm2
      rw [show (2 : ℕ) = 1 + 1 from rfl, loginFrom_succ_err t env 1 1 c1 h1] at hm2
      norm_num at hm2
      rw [show (1 : ℕ) = 0 + 1 from rfl, loginFrom_succ_ok t env 2 0 h2] at hm2
      simp at hm2
    refine ⟨c2, rfl, ?_, ?_, ?_⟩
    · rw [show (3 : ℕ) = 2 + 1 from rfl, loginFrom_succ_err t env 0 2 c0 h0] at hm2
      norm_num at hm2
      rw [show (2 : ℕ) = 1 + 1 from rfl, loginFrom_succ_err t env 1 1 c1 h1] at hm2
      norm_num at hm2
      rw [show (1 : ℕ) = 0 + 1 from rfl, loginFrom_succ_err t env 2 0 c2 h2] at hm2
      norm_num at hm2
      have hmsg : "登录失败，已达到最大重试次数 (" ++ toString maxRetries ++ "): "
          = "登录失败，已达到最大重试次数 (3): " := by decide
      rw [hmsg] at hm2
      exact hm2.symm
    · simp only [login, List.countP_cons]
      rw [show maxRetries = 2 + 1 from rfl, loginFrom_succ_err t env 0 2 c0 h0]
      norm_num
      rw [show (2 : ℕ) = 1 + 1 from rfl, loginFrom_succ_err t env 1 1 c1 h1]
      norm_num
      rw [show (1 : ℕ) = 0 + 1 from rfl, loginFrom_succ_err t env 2 0 c2 h2]
      norm_num
      simp [List.countP_append, List.countP_cons, attempt_countP_closePage,
        isClosePage]
    · simp only [login, List.countP_cons]
      rw [show maxRetries = 2 + 1 from rfl, loginFrom_succ_err t env 0 2 c0 h0]
      norm_num
      rw [show (2 : ℕ) = 1 + 1 from rfl, loginFrom_succ_err t env 1 1 c1 h1]
      norm_num
      rw [show (1 : ℕ) = 0 + 1 from rfl, loginFrom_succ_err t env 2 0 c2 h2]
      norm_num
      simp [List.countP_append, List.countP_cons, attempt_countP_closeContext,
        isCloseContext]

/-- Environment used to witness C3: every attempt fails verification. -/
def cenvC3 : ℕ → AttemptEnv := fun _ =>
  { cookies := 0, gotoOk := true, gotoErr := "", sidebarPresent := false,
    probeLoggedIn := false, dialogAppears := true, dialogErr := "",
    qrAppears := true, qrErr := "", humanAppears := true, humanErr := "",
    verifyOk := false }

/-- C3 witness: with every attempt failing verification, the terminal message
carries the literal retry ceiling 3 and wraps the last cause, and each of the
three failed attempts closed its page and context. -/
theorem C3_login_retry_policy_witness :
    (login 60000 cenvC3).1.countP isNewContext ≤ 3 ∧
    ∃ c, (loginAttempt 60000 (cenvC3 2)).2 = .error c ∧
      "登录失败，已达到最大重试次数 (3): Login verification failed"
        = "登录失败，已达到最大重试次数 (3): " ++ c ∧
      (login 60000 cenvC3).1.countP isClosePage = 3 ∧
      (login 60000 cenvC3).1.countP isCloseContext = 3 :=
  ⟨(C3_login_retry_policy 60000 cenvC3).1,
    (C3_login_retry_policy 60000 cenvC3).2.2.2
      "登录失败，已达到最大重试次数 (3): Login verification failed" (by decide)⟩

lemma loginAttempt_cookieReplay (t : ℚ) (env : AttemptEnv) (hc : 0 < env.cookies)
    (hg : env.gotoOk = true) (hs : env.sidebarPresent = true)
    (hp : env.probeLoggedIn = true) :
    loginAttempt t env =
      ([AEv.newContext, AEv.newPage, AEv.addCookies env.cookies,
        AEv.gotoExplore (qmin 10000 (divQ t 3)), AEv.querySidebar, AEv.probe,
        AEv.saveCookies], .ok ()) := by
  unfold loginAttempt
  simp [hc, hg, hs, hp]

lemma login_cookieReplay (t : ℚ) (env : ℕ → AttemptEnv) (hc : 0 < (env 0).cookies)
    (hg : (env 0).gotoOk = true) (hs : (env 0).sidebarPresent = true)
    (hp : (env 0).probeLoggedIn = true) :
    login t env =
      ([AEv.launch, AEv.newContext, AEv.newPage, AEv.addCookies (env 0).cookies,
        AEv.gotoExplore (qmin 10000 (divQ t 3)), AEv.querySidebar, AEv.probe,
        AEv.saveCookies], .ok ()) := by
  have ha := loginAttempt_cookieReplay t (env 0) hc hg hs hp
  have ha2 : (loginAttempt t (env 0)).2 = .ok () := by rw [ha]
  simp only [login]
  rw [show maxRetries = 2 + 1 from rfl, loginFrom_succ_ok t env 0 2 ha2, ha]

/-- C7: with valid persisted cookies (cookies present, navigation fine,
sidebar identity probe positive) two sequential login calls both take exactly
the cookie-replay-plus-probe path — launch, context, page, cookie load,
landing navigation, sidebar query, probe, cookie save — and succeed; neither
trace contains a login-dialog or QR-code wait. -/
theorem C7_login_idempotent_cookie_replay (t : ℚ) (env₁ env₂ : ℕ → AttemptEnv)
    (h1c : 0 < (env₁ 0).cookies) (h1g : (env₁ 0).gotoOk = true)
    (h1s : (env₁ 0).sidebarPresent = true) (h1p : (env₁ 0).probeLoggedIn = true)
    (h2c : 0 < (env₂ 0).cookies) (h2g : (env₂ 0).gotoOk = true)
    (h2s : (env₂ 0).sidebarPresent = true) (h2p : (env₂ 0).probeLoggedIn = true) :
    (loginTwice t env₁ env₂).1 =
      ([AEv.launch, AEv.newContext, AEv.newPage, AEv.addCookies (env₁ 0).cookies,
        AEv.gotoExplore (qmin 10000 (t / 3)), AEv.querySidebar, AEv.probe,
        AEv.saveCookies], .ok ()) ∧
    (loginTwice t env₁ env₂).2 =
      ([AEv.launch, AEv.newContext, AEv.newPage, AEv.addCookies (env₂ 0).cookies,
        AEv.gotoExplore (qmin 10000 (t / 3)), AEv.querySidebar, AEv.probe,
        AEv.saveCookies], .ok ()) ∧
    (∀ b, AEv.waitDialog b ∉ ((loginTwice t env₁ env₂).1).1) ∧
    (∀ b, AEv.waitQr b ∉ ((loginTwice t env₁ env₂).1).1) ∧
    (∀ b, AEv.waitDialog b ∉ ((loginTwice t env₁ env₂).2).1) ∧
    (∀ b, AEv.waitQr b ∉ ((loginTwice t env₁ env₂).2).1) := by
  rw [qmin_divQ3 t]
  have hl1 := login_cookieReplay t env₁ h1c h1g h1s h1p
  have hl2 := login_cookieReplay t env₂ h2c h2g h2s h2p
  refine ⟨by simp [loginTwice, hl1], by simp [loginTwice, hl2], ?_, ?_, ?_, ?_⟩ <;>
    intro b <;> simp [loginTwice, hl1, hl2]

/-- Environment used to witness C7: three valid cookies, probe positive. -/
def cenvC7 : ℕ → AttemptEnv := fun _ =>
  { cookies := 3, gotoOk := true, gotoErr := "", sidebarPresent := true,
    probeLoggedIn := true, dialogAppears := false, dialogErr := "",
    qrAppears := false, qrErr := "", humanAppears := false, humanErr := "",
    verifyOk := true }

/-- C7 witness: both sequential calls succeed through the cookie-replay path
and never wait for the login dialog. -/
theorem C7_login_idempotent_cookie_replay_witness :
    (loginTwice 60000 cenvC7 cenvC7).1 =
      ([AEv.launch, AEv.newContext, AEv.newPage, AEv.addCookies 3,
        AEv.gotoExplore (qmin 10000 (60000 / 3)), AEv.querySidebar, AEv.probe,
        AEv.saveCookies], .ok ()) ∧
    (∀ b, AEv.waitDialog b ∉ ((loginTwice 60000 cenvC7 cenvC7).2).1) :=
  ⟨(C7_login_idempotent_cookie_replay 60000 cenvC7 cenvC7
      (by decide) rfl rfl rfl (by decide) rfl rfl rfl).1,
    (C7_login_idempotent_cookie_replay 60000 cenvC7 cenvC7
      (by decide) rfl rfl rfl (by decide) rfl rfl rfl).2.2.2.2.1⟩

/-! ### Search per-item isolation (C1) -/

/-- Does processing this item throw out of the per-item `catch` block (the
recovery close/detach itself throws)? -/
def propagates : ItemOutcome → Bool
  | .fail (.throws _) => true
  | .okThenFail _ (.throws _) => true
  | _ => false

/-- The notes that reach the result list, in order: those item outcomes whose
extraction produced a non-null note that was pushed. -/
def okNotes : List ItemOutcome → List NoteV :=
  List.filterMap fun o =>
    match o with
    | .ok n => some n
    | .okThenFail n _ => some n
    | _ => none

lemma searchLoop_ok_length (l : List ItemOutcome) (ns : List NoteV)
    (h : searchLoop l = .ok ns) : ns.length ≤ l.length := by
  induction l generalizing ns with
  | nil =>
    simp [searchLoop] at h
    subst h
    simp
  | cons o rest ih =>
    cases o with
    | ok n =>
      simp only [searchLoop] at h
      rcases hr : searchLoop rest with m | ns0 <;> rw [hr] at h <;>
        simp [Except.map] at h
      subst h
      simpa using Nat.succ_le_succ (ih ns0 hr)
    | nullNote =>
      simp only [searchLoop] at h
      exact le_trans (ih ns h) (Nat.le_succ _)
    | fail r =>
      cases r with
      | throws m => simp [searchLoop] at h
      | closed =>
        simp only [searchLoop] at h
        exact le_trans (ih ns h) (Nat.le_succ _)
      | noButton =>
        simp only [searchLoop] at h
        exact le_trans (ih ns h) (Nat.le_succ _)
    | okThenFail n r =>
      cases r with
      | throws m => simp [searchLoop] at h
      | closed =>
        simp only [searchLoop] at h
        rcases hr : searchLoop rest with m | ns0 <;> rw [hr] at h <;>
          simp [Except.map] at h
        subst h
        simpa using Nat.succ_le_succ (ih ns0 hr)
      | noButton =>
        simp only [searchLoop] at h
        rcases hr : searchLoop rest with m | ns0 <;> rw [hr] at h <;>
          simp [Except.map] at h
        subst h
        simpa using Nat.succ_le_succ (ih ns0 hr)

lemma searchLoop_all_ok (l : List ItemOutcome)
    (h : ∀ o ∈ l, propagates o = false) :
    searchLoop l = .ok (okNotes l) := by
  induction l with
  | nil => simp [searchLoop, okNotes]
  | cons o rest ih =>
    have ho := h o (by simp)
    have hrest := ih fun o2 ho2 => h o2 (by simp [ho2])
    cases o with
    | ok n => simp [searchLoop, okNotes, hrest, Except.map]
    | nullNote => simp [searchLoop, okNotes, hrest]
    | fail r => cases r <;> simp_all [searchLoop, okNotes, propagates]
    | okThenFail n r =>
      cases r <;> simp_all [searchLoop, okNotes, propagates, Except.map]

/-- A small distinguishable note value for concrete scenarios. -/
def cnote (i : ℕ) : NoteV :=
  { title := "note" ++ toString i, content := "", url := "", author := "",
    likes := i, collects := 0, comments := 0 }

/-- C1 counterexample: with limit 5 and exactly one failing item whose
in-`catch` recovery (close-dialog click / detach wait, rednoteTools.ts lines
219-228) itself throws, the thrown error escapes the per-item handler and the
whole call returns an error instead of the claimed 4-note list. -/
theorem C1_search_counterexample :
    (searchNotesM "kw" 5 none 30000
      { init := { browserAlreadyOpen := false, authBrowserLaunched := false, cookies := 1, gotoHomeOk := true,
                  evalResult := some true },
        gotoSearchOk := true, resultsOk := true,
        items := [ItemOutcome.ok (cnote 0), ItemOutcome.ok (cnote 1),
          ItemOutcome.fail (RecOutcome.throws "page.waitForSelector: Timeout 30000ms exceeded"),
          ItemOutcome.ok (cnote 3), ItemOutcome.ok (cnote 4)] }).2
      = .error "page.waitForSelector: Timeout 30000ms exceeded" := by decide

/-- C1 (amended): the search loop processes at most `min(length, limit)`
items, so a successful result has at most `limit` notes (and no more than the
items found); per-item failures are caught and the item skipped *provided*
the in-`catch` recovery does not itself throw — under that proviso the call
returns exactly the successfully extracted notes, and in the concrete
20-item, limit-5, one-failing-item scenario the result has length 4 and omits
exactly the failing item. -/
theorem C1_search_per_item_isolation :
    (∀ (items : List ItemOutcome) (limit : ℕ) (ns : List NoteV),
      searchNotesCore items limit = .ok ns →
        ns.length ≤ limit ∧ ns.length ≤ items.length) ∧
    (∀ (items : List ItemOutcome) (limit : ℕ),
      (∀ o ∈ items.take limit, propagates o = false) →
      searchNotesCore items limit = .ok (okNotes (items.take limit))) ∧
    searchNotesCore
      ((List.range 20).map fun i =>
        if i = 2 then ItemOutcome.fail RecOutcome.closed else ItemOutcome.ok (cnote i)) 5
      = .ok [cnote 0, cnote 1, cnote 3, cnote 4] := by
  refine ⟨?_, ?_, by decide⟩
  · intro items limit ns h
    have h1 := searchLoop_ok_length _ _ h
    rw [List.length_take] at h1
    exact ⟨le_trans h1 (min_le_left _ _), le_trans h1 (min_le_right _ _)⟩
  · intro items limit h
    exact searchLoop_all_ok _ h

/-- Six item outcomes, one failing with a successful recovery. -/
def items6 : List ItemOutcome :=
  [ItemOutcome.ok (cnote 0), ItemOutcome.ok (cnote 1), ItemOutcome.fail RecOutcome.closed,
    ItemOutcome.ok (cnote 3), ItemOutcome.ok (cnote 4), ItemOutcome.ok (cnote 5)]

/-- C1 witness: in a concrete run the amended theorem yields the 4-note
result and its length bounds. -/
theorem C1_search_per_item_isolation_witness :
    searchNotesCore items6 5 = .ok (okNotes (items6.take 5)) ∧
    ([cnote 0, cnote 1, cnote 3, cnote 4].length ≤ 5 ∧
      [cnote 0, cnote 1, cnote 3, cnote 4].length ≤ items6.length) :=
  ⟨C1_search_per_item_isolation.2.1 items6 5 (by decide),
    C1_search_per_item_isolation.1 items6 5 [cnote 0, cnote 1, cnote 3, cnote 4]
      (by decide)⟩

/-- C9: every timeout error message constructed by the login flow's selector
waits or by a workflow's navigation/selector waits carries the literal
millisecond bound of the wait that timed out.  (The login flow's landing-page
navigation is not wrapped: a timeout there propagates the browser library's
own error object, which this code does not construct.) -/
theorem C9_timeout_messages_carry_bound :
    (∀ (t : ℚ) (env : AttemptEnv) m, env.gotoOk = true → env.dialogAppears = false →
      (loginAttempt t env).2 = .error m →
      containsSub m (renderQ (qmin 10000 (t / 3)) ++ "ms")) ∧
    (∀ (t : ℚ) (env : AttemptEnv) m, env.gotoOk = true → env.dialogAppears = true →
      env.qrAppears = false → (loginAttempt t env).2 = .error m →
      containsSub m (renderQ (qmin 10000 (t / 3)) ++ "ms")) ∧
    (∀ (t : ℚ) (env : AttemptEnv) m, env.gotoOk = true → env.dialogAppears = true →
      env.qrAppears = true → env.humanAppears = false →
      (loginAttempt t env).2 = .error m → containsSub m (renderQ t ++ "ms")) ∧
    (∀ (t : ℚ) (env : InitEnv) m, env.browserAlreadyOpen = false →
      env.gotoHomeOk = false → (initTools env t).2 = some m →
      containsSub m (renderQ t ++ "ms")) ∧
    (∀ (t : ℚ) (env : InitEnv) m, env.browserAlreadyOpen = false →
      env.gotoHomeOk = true → env.evalResult = none → (initTools env t).2 = some m →
      containsSub m (renderQ t ++ "ms")) ∧
    (∀ kw limit callT instT (env : SearchEnv) m,
      (initTools env.init (toolsEffectiveTimeout callT instT)).2 = none →
      env.gotoSearchOk = false →
      (searchNotesM kw limit callT instT env).2 = .error m →
      containsSub m (renderQ (toolsEffectiveTimeout callT instT) ++ "ms")) ∧
    (∀ kw limit callT instT (env : SearchEnv) m,
      (initTools env.init (toolsEffectiveTimeout callT instT)).2 = none →
      env.gotoSearchOk = true → env.resultsOk = false →
      (searchNotesM kw limit callT instT env).2 = .error m →
      containsSub m (renderQ (toolsEffectiveTimeout callT instT) ++ "ms")) ∧
    (∀ url callT instT (env : DetailEnv) m,
      (initTools env.init (toolsEffectiveTimeout callT instT)).2 = none →
      env.gotoOk = false →
      (getNoteContentM url callT instT env).2 = .error m →
      containsSub m (renderQ (toolsEffectiveTimeout callT instT) ++ "ms")) ∧
    (∀ url callT instT (env : CommentsEnv) m,
      (initTools env.init (toolsEffectiveTimeout callT instT)).2 = none →
      env.gotoOk = false →
      (getNoteCommentsM url callT instT env).2 = .error m →
      containsSub m (renderQ (toolsEffectiveTimeout callT instT) ++ "ms")) ∧
    (∀ url callT instT (env : CommentsEnv) m,
      (initTools env.init (toolsEffectiveTimeout callT instT)).2 = none →
      env.gotoOk = true → env.commentsOk = false →
      (getNoteCommentsM url callT instT env).2 = .error m →
      containsSub m (renderQ (toolsEffectiveTimeout callT instT) ++ "ms")) := by
  refine ⟨?_, ?_, ?_, ?_, ?_, ?_, ?_, ?_, ?_, ?_⟩
  · intro t env m hg hd herr
    rw [qmin_divQ3 t]
    unfold loginAttempt at herr
    by_cases hs : env.sidebarPresent <;> by_cases hp : env.probeLoggedIn <;>
      simp [hg, hs, hp, loginDialogPhase, hd] at herr <;>
      exact herr ▸ containsSub_msgA _ _ _
  · intro t env m hg hd hq herr
    rw [qmin_divQ3 t]
    unfold loginAttempt at herr
    by_cases hs : env.sidebarPresent <;> by_cases hp : env.probeLoggedIn <;>
      simp [hg, hs, hp, loginDialogPhase, hd, hq] at herr <;>
      exact herr ▸ containsSub_msgA _ _ _
  · intro t env m hg hd hq hh herr
    unfold loginAttempt at herr
    by_cases hs : env.sidebarPresent <;> by_cases hp : env.probeLoggedIn <;>
      simp [hg, hs, hp, loginDialogPhase, hd, hq, hh] at herr <;>
      exact herr ▸ containsSub_msgA _ _ _
  · intro t env m hb hg herr
    simp [initTools, hb, hg] at herr
    exact herr ▸ containsSub_msgB _ _
  · intro t env m hb hg he herr
    simp [initTools, hb, hg, he] at herr
    exact herr ▸ containsSub_msgB _ _
  · intro kw limit callT instT env m hini hgoto herr
    simp [searchNotesM, hini, hgoto] at herr
    exact herr ▸ containsSub_msgB _ _
  · intro kw limit callT instT env m hini hgoto hres herr
    simp [searchNotesM, hini, hgoto, hres] at herr
    exact herr ▸ containsSub_msgB _ _
  · intro url callT instT env m hini hgoto herr
    simp [getNoteContentM, hini, hgoto] at herr
    exact herr ▸ containsSub_msgB _ _
  · intro url callT instT env m hini hgoto herr
    simp [getNoteCommentsM, hini, hgoto] at herr
    exact herr ▸ containsSub_msgB _ _
  · intro url callT instT env m hini hgoto hcom herr
    simp [getNoteCommentsM, hini, hgoto, hcom] at herr
    exact herr ▸ containsSub_msgB _ _

/-- Attempt environment used to witness C9: the login dialog never appears. -/
def cenvC9 : AttemptEnv :=
  { cookies := 0, gotoOk := true, gotoErr := "", sidebarPresent := false,
    probeLoggedIn := false, dialogAppears := false, dialogErr := "boom",
    qrAppears := false, qrErr := "", humanAppears := false, humanErr := "",
    verifyOk := false }

/-- Search environment used to witness C9: the search navigation times out. -/
def senvC9 : SearchEnv :=
  { init := { browserAlreadyOpen := false, authBrowserLaunched := false, cookies := 0, gotoHomeOk := true,
              evalResult := some true },
    gotoSearchOk := false, resultsOk := false, items := [] }

/-- C9 witness: the concrete dialog-timeout message carries `10000ms`
(`min(10000, 60000/3)`), and the concrete search-navigation timeout message
carries `30000ms`. -/
theorem C9_timeout_messages_carry_bound_witness :
    containsSub "登录对话框加载超时 (10000ms): boom"
      (renderQ (qmin 10000 ((60000 : ℚ) / 3)) ++ "ms") ∧
    containsSub "导航到搜索页面超时 (30000ms)"
      (renderQ (toolsEffectiveTimeout none 30000) ++ "ms") :=
  ⟨C9_timeout_messages_carry_bound.1 60000 cenvC9 "登录对话框加载超时 (10000ms): boom"
      rfl rfl (by decide),
    C9_timeout_messages_carry_bound.2.2.2.2.2.1 "kw" 5 none 30000 senvC9
      "导航到搜索页面超时 (30000ms)" (by decide) rfl (by decide)⟩

/-! ### Link resolution lemmas (C5) -/

lemma takeWhile_all_append (p : Char → Bool) (l r : List Char)
    (hl : ∀ c ∈ l, p c = true) (hr : ∀ c, r.head? = some c → p c = false) :
    (l ++ r).takeWhile p = l := by
  induction l with
  | nil =>
    cases r with
    | nil => simp
    | cons c cs => simp [List.takeWhile_cons, hr c rfl]
  | cons c cs ih =>
    simp only [List.cons_append, List.takeWhile_cons, hl c (by simp)]
    simp only [ite_true, List.cons.injEq, true_and]
    exact ih fun x hx => hl x (by simp [hx])

/-- The short-link pattern applied at the start of a string that begins with
the literal `http://xhslink.com/` reduces to taking the maximal run of
`[a-zA-Z0-9/]` characters of the remainder. -/
lemma matchXhslinkAt_reduce (Y : List Char) :
    matchXhslinkAt ("http://xhslink.com/".data ++ Y)
      = (if (Y.takeWhile isLinkChar).isEmpty then none
         else some ("http://xhslink.com/".data ++ Y.takeWhile isLinkChar)) := rfl

/-- The canonical-domain pattern applied at the start of a string that begins
with the literal `https://www.xiaohongshu.com/` reduces to taking the maximal
run of non-`，`, non-whitespace characters of the remainder. -/
lemma matchXiaohongshuAt_reduce (Y : List Char) :
    matchXiaohongshuAt ("https://www.xiaohongshu.com/".data ++ Y)
      = (if (Y.takeWhile isXhsBodyChar).isEmpty then none
         else some ("https://www.xiaohongshu.com/".data ++ Y.takeWhile isXhsBodyChar)) := rfl

lemma firstMatch_head (f : List Char → Option (List Char)) (s : List Char)
    (m : List Char) (hs : s ≠ []) (hf : f s = some m) : firstMatch f s = some m := by
  cases s with
  | nil => exact absurd rfl hs
  | cons c cs => simp [firstMatch, hf]

lemma extractRedBookUrl_of_first (s : String) (m : List Char)
    (h : firstMatch matchXhslinkAt s.data = some m) : extractRedBookUrl s = ⟨m⟩ := by
  unfold extractRedBookUrl
  rw [h]

lemma extractRedBookUrl_of_second (s : String)
    (h1 : firstMatch matchXhslinkAt s.data = none) (m : List Char)
    (h2 : firstMatch matchXiaohongshuAt s.data = some m) :
    extractRedBookUrl s = ⟨m⟩ := by
  unfold extractRedBookUrl
  rw [h1, h2]

lemma extractRedBookUrl_of_none (s : String)
    (h1 : firstMatch matchXhslinkAt s.data = none)
    (h2 : firstMatch matchXiaohongshuAt s.data = none) :
    extractRedBookUrl s = s := by
  unfold extractRedBookUrl
  rw [h1, h2]

/-- C5: the link resolver is a pure total function that (i) prefers the
short-link pattern when both patterns have a match, returning that (leftmost)
match; (ii) on a string beginning with a short link returns exactly the link
— the maximal `[a-zA-Z0-9/]` run — with the trailing prose stripped; (iii) on
a string beginning with a canonical-domain link (and containing no short-link
match) returns the matched substring up to, not including, the first
full-width comma or whitespace; (iv) returns any string with no match of
either pattern unchanged. -/
theorem C5_extractRedBookUrl_behaviour :
    (∀ (s : String) (m1 m2 : List Char),
      firstMatch matchXhslinkAt s.data = some m1 →
      firstMatch matchXiaohongshuAt s.data = some m2 →
      extractRedBookUrl s = ⟨m1⟩) ∧
    (∀ body rest : List Char, body ≠ [] →
      (∀ c ∈ body, isLinkChar c = true) →
      (∀ c, rest.head? = some c → isLinkChar c = false) →
      extractRedBookUrl ⟨"http://xhslink.com/".data ++ (body ++ rest)⟩
        = ⟨"http://xhslink.com/".data ++ body⟩) ∧
    (∀ body rest : List Char, body ≠ [] →
      (∀ c ∈ body, isXhsBodyChar c = true) →
      (∀ c, rest.head? = some c → isXhsBodyChar c = false) →
      firstMatch matchXhslinkAt
        ("https://www.xiaohongshu.com/".data ++ (body ++ rest)) = none →
      extractRedBookUrl ⟨"https://www.xiaohongshu.com/".data ++ (body ++ rest)⟩
        = ⟨"https://www.xiaohongshu.com/".data ++ body⟩) ∧
    (∀ s : String, firstMatch matchXhslinkAt s.data = none →
      firstMatch matchXiaohongshuAt s.data = none →
      extractRedBookUrl s = s) := by
  refine ⟨?_, ?_, ?_, ?_⟩
  · intro s m1 m2 h1 h2
    exact extractRedBookUrl_of_first s m1 h1
  · intro body rest hb hall hrest
    have hY : (body ++ rest).takeWhile isLinkChar = body :=
      takeWhile_all_append _ _ _ hall hrest
    have hne : body.isEmpty = false := by
      cases body with
      | nil => exact absurd rfl hb
      | cons c cs => rfl
    have hred : matchXhslinkAt ("http://xhslink.com/".data ++ (body ++ rest))
        = some ("http://xhslink.com/".data ++ body) := by
      rw [matchXhslinkAt_reduce, hY, hne]
      simp
    have hnil : ("http://xhslink.com/".data ++ (body ++ rest)) ≠ [] := by
      intro h
      have h2 := congrArg List.length h
      simp [List.length_append] at h2
    exact extractRedBookUrl_of_first _ _
      (firstMatch_head matchXhslinkAt _ _ hnil hred)
  · intro body rest hb hall hrest hnone
    have hY : (body ++ rest).takeWhile isXhsBodyChar = body :=
      takeWhile_all_append _ _ _ hall hrest
    have hne : body.isEmpty = false := by
      cases body with
      | nil => exact absurd rfl hb
      | cons c cs => rfl
    have hred : matchXiaohongshuAt
        ("https://www.xiaohongshu.com/".data ++ (body ++ rest))
        = some ("https://www.xiaohongshu.com/".data ++ body) := by
      rw [matchXiaohongshuAt_reduce, hY, hne]
      simp
    have hnil : ("https://www.xiaohongshu.com/".data ++ (body ++ rest)) ≠ [] := by
      intro h
      have h2 := congrArg List.length h
      simp [List.length_append] at h2
    exact extractRedBookUrl_of_second _ hnone _
      (firstMatch_head matchXiaohongshuAt _ _ hnil hred)
  · intro s h1 h2
    exact extractRedBookUrl_of_none s h1 h2

/-- C5 witness: a short link followed by prose is stripped to the link; a
string with no link is returned unchanged. -/
theorem C5_extractRedBookUrl_behaviour_witness :
    extractRedBookUrl ⟨"http://xhslink.com/".data ++ ("AbC3".data ++ " 快来看".data)⟩
      = ⟨"http://xhslink.com/".data ++ "AbC3".data⟩ ∧
    extractRedBookUrl "hello world" = "hello world" :=
  ⟨C5_extractRedBookUrl_behaviour.2.1 "AbC3".data " 快来看".data (by decide)
      (by decide) (by decide),
    C5_extractRedBookUrl_behaviour.2.2.2 "hello world" (by decide) (by decide)⟩

end RedNote
